import Mathlib

/-
Shallow embedding of src/python/runDockerContainer_1.py.

The script defines `run_docker_container(image_name, name, protocol, ports,
volumes, clean_host_volume_dirs, environment)` and a `__main__` block.  All
contact with the Docker daemon goes through five client operations
(containers.list, container.stop, containers.prune, images.pull,
containers.run); we record those as an explicit trace of `Call` values and
model daemon/filesystem behaviour with an `Oracle` of boolean outcomes.
Machine state that persists between the two top-level invocations (which
containers of the target image are running) is threaded as `DockerState`.
-/

/-- Embeds Python `s.split(sep)` for a one-character separator: auxiliary
recursion over the character list, accumulating the current token. -/
def pySplitAux (sep : Char) : List Char → List Char → List String
  | [], acc => [String.mk acc.reverse]
  | c :: rest, acc =>
    if c = sep then String.mk acc.reverse :: pySplitAux sep rest []
    else pySplitAux sep rest (c :: acc)

/-- Embeds Python `s.split(sep)` (no maxsplit): `"".split(c) = [""]`,
`"a:".split(c) = ["a", ""]`, `"a:b:c".split(c) = ["a", "b", "c"]`. -/
def pySplit (sep : Char) (s : String) : List String :=
  pySplitAux sep s.data []

/-- Embeds Python dict assignment `d[k] = v` on an insertion-ordered dict:
an existing key keeps its position and gets the new value, a new key is
appended at the end. -/
def dictInsert {α : Type} (d : List (String × α)) (k : String) (v : α) :
    List (String × α) :=
  if d.any (fun p => p.1 == k) then
    d.map (fun p => if p.1 == k then (k, v) else p)
  else d ++ [(k, v)]

/-- Embeds the volume value dict built at line 114:
`{'bind': container_path, 'mode': 'rw'}`. -/
structure VolumeBind where
  bind : String
  mode : String
deriving DecidableEq

/-- One call issued to the Docker client (the runtime facade).  `run`
carries the keyword params the script passes: name, the converted ports
dict, volumes dict and environment dict. -/
inductive Call where
  | listRunning (image : String)
  | stop (containerId : String)
  | prune
  | pullImage (image : String)
  | run (image : String) (name : Option String)
      (ports : List (String × String))
      (volumes : List (String × VolumeBind))
      (env : List (String × String))
deriving DecidableEq

/-- Tests whether a call is an image pull. -/
def Call.isPull : Call → Bool
  | Call.pullImage _ => true
  | _ => false

/-- Tests whether a call is a container run. -/
def Call.isRun : Call → Bool
  | Call.run _ _ _ _ _ => true
  | _ => false

/-- Tests whether a call is a container stop. -/
def Call.isStop : Call → Bool
  | Call.stop _ => true
  | _ => false

/-- Tests whether a call is a listRunning query. -/
def Call.isList : Call → Bool
  | Call.listRunning _ => true
  | _ => false

/-- Holds when a call is not a run call, or is a run call whose environment
dict is empty. -/
def Call.envIsEmpty : Call → Bool
  | Call.run _ _ _ _ e => e.isEmpty
  | _ => true

/-- The distinct early-return sites of `run_docker_container`. -/
inductive RunError where
  /-- Return at line 86: `docker.errors.APIError` during list/stop/prune. -/
  | drainAPIError
  /-- Return at line 113: `test -d host_path` failed under
  `clean_host_volume_dirs`. -/
  | volumeMissing (hostPath : String)
  /-- Return at line 136: `docker.errors.APIError` while pulling. -/
  | pullError
  /-- Handler at line 146: `docker.errors.APIError` while running. -/
  | runAPIError
deriving DecidableEq

/-- How one invocation of `run_docker_container` ends. -/
inductive Outcome where
  /-- The container was started; the script prints its short id. -/
  | success (containerId : String)
  /-- An early `return` (or the run-error handler) was taken. -/
  | aborted (e : RunError)
  /-- An uncaught Python exception: `"TypeError"` (iterating `None`) or
  `"IndexError"` (reading a missing split token). -/
  | crash (exn : String)
deriving DecidableEq

/-- Tests whether an outcome is the missing-host-volume early return. -/
def Outcome.isVolumeMissing : Outcome → Bool
  | Outcome.aborted (RunError.volumeMissing _) => true
  | _ => false

/-- Behaviour of the external world: which daemon calls fail with
`APIError`, which host directories exist, and which ids the daemon assigns
to newly run containers (by a running counter). -/
structure Oracle where
  listFails : Bool
  stopFails : String → Bool
  pruneFails : Bool
  pullFails : Bool
  runFails : Bool
  dirExists : String → Bool
  ids : Nat → String

/-- Daemon-side state threaded between invocations: the running containers
as (id, image) pairs, and the counter feeding `Oracle.ids`. -/
structure DockerState where
  running : List (String × String)
  counter : Nat
deriving DecidableEq

/-- Embeds lines 89–97: `for port in params['ports']`.  Each string is
split on every `:`; `ports[0]` is the host port and `ports[1]` the
container port (reading `ports[1]` of a one-token split raises IndexError,
modelled as `none`); the dict maps `f"{container}/{protocol}"` to the host
port. -/
def portsLoop (protocol : String) :
    List String → List (String × String) → Option (List (String × String))
  | [], acc => some acc
  | p :: rest, acc =>
    match pySplit ':' p with
    | [] => none
    | [_] => none
    | host :: containerPort :: _ =>
      portsLoop protocol rest (dictInsert acc (containerPort ++ "/" ++ protocol) host)

/-- Result of the volume-conversion loop. -/
inductive VolRes where
  /-- The loop finished and produced the volumes dict. -/
  | ok (d : List (String × VolumeBind))
  /-- Return at line 113: `test -d` failed for this host path. -/
  | missing (hostPath : String)
  /-- IndexError reading `parts[1]` of a one-token split. -/
  | indexError
deriving DecidableEq

/-- Embeds lines 99–115: `for volume in params['volumes']`.  Each string is
split on every `:`; under `clean_host_volume_dirs` the host path is checked
with `test -d` and a missing directory causes the early return; otherwise
the dict maps the host path to `{'bind': container_path, 'mode': 'rw'}`. -/
def volumesLoop (dirExists : String → Bool) (clean : Bool) :
    List String → List (String × VolumeBind) → VolRes
  | [], acc => VolRes.ok acc
  | v :: rest, acc =>
    match pySplit ':' v with
    | [] => VolRes.indexError
    | [_] => VolRes.indexError
    | host :: containerPath :: _ =>
      if clean && !(dirExists host) then VolRes.missing host
      else volumesLoop dirExists clean rest (dictInsert acc host ⟨containerPath, "rw"⟩)

/-- Embeds lines 118–126: `for env in params['environment']`.  Each string
is split on every `=`; `parts[0]` is the name and `parts[1]` the value
(later tokens are dropped; a missing `parts[1]` raises IndexError, modelled
as `none`); assignment into the dict overwrites an existing name. -/
def envLoop : List String → List (String × String) → Option (List (String × String))
  | [], acc => some acc
  | e :: rest, acc =>
    match pySplit '=' e with
    | [] => none
    | [_] => none
    | name :: value :: _ => envLoop rest (dictInsert acc name value)

/-- Embeds lines 76–77: stop each matched container in discovery order.
The first `APIError` propagates to the handler at line 84, so the loop
stops there.  Returns (stop calls issued, ids actually stopped, success). -/
def drainStops (oracle : Oracle) : List String → List Call × List String × Bool
  | [] => ([], [], true)
  | cid :: rest =>
    if oracle.stopFails cid then ([Call.stop cid], [], false)
    else
      let ds := drainStops oracle rest
      (Call.stop cid :: ds.1, cid :: ds.2.1, ds.2.2)

/-- Ids returned by `client.containers.list` at line 71: the running
containers whose ancestor is the target image, in discovery order. -/
def matchedIds (image_name : String) (st : DockerState) : List String :=
  (st.running.filter (fun c => c.2 == image_name)).map (fun c => c.1)

/-- Daemon state after the stop loop: the containers the loop actually
stopped are no longer running. -/
def afterStopsState (oracle : Oracle) (image_name : String) (st : DockerState) :
    DockerState :=
  ⟨st.running.filter
      (fun c => !((drainStops oracle (matchedIds image_name st)).2.1.contains c.1)),
   st.counter⟩

/-- Embeds lines 69–86: list running containers of the image; if any, stop
them all and prune.  An `APIError` from list, stop or prune reaches the
handler at line 84 and makes the caller return (third component `false`).
The `except NotFound` branch at line 82 merely proceeds, which coincides
with the no-matches case.  Returns (calls, updated state, completed). -/
def drainPhase (oracle : Oracle) (image_name : String) (st : DockerState) :
    List Call × DockerState × Bool :=
  if oracle.listFails then ([Call.listRunning image_name], st, false)
  else if (matchedIds image_name st).isEmpty then
    ([Call.listRunning image_name], st, true)
  else if (drainStops oracle (matchedIds image_name st)).2.2 then
    (Call.listRunning image_name ::
      ((drainStops oracle (matchedIds image_name st)).1 ++ [Call.prune]),
     afterStopsState oracle image_name st, !oracle.pruneFails)
  else
    (Call.listRunning image_name :: (drainStops oracle (matchedIds image_name st)).1,
     afterStopsState oracle image_name st, false)

/-- Embeds lines 88–148, the phases after a successful drain: the three
conversion loops, the pull and the run.  `protocol` here is whatever
line 38 left in scope; the environment loop runs over
`params['environment']`, which is always the default `[]` because line 35
onward never copies the `environment` argument into `params`.  The trace
returned here excludes the drain calls. -/
def afterDrain (oracle : Oracle) (image_name : String) (name : Option String)
    (protocol : String) (ports volumes : Option (List String)) (clean : Bool)
    (st1 : DockerState) : Outcome × List Call × DockerState :=
  match ports with
  | none => (Outcome.crash "TypeError", [], st1)
  | some ps =>
    match portsLoop protocol ps [] with
    | none => (Outcome.crash "IndexError", [], st1)
    | some ports_dict =>
      match volumes with
      | none => (Outcome.crash "TypeError", [], st1)
      | some vs =>
        match volumesLoop oracle.dirExists clean vs [] with
        | VolRes.indexError => (Outcome.crash "IndexError", [], st1)
        | VolRes.missing h => (Outcome.aborted (RunError.volumeMissing h), [], st1)
        | VolRes.ok volumes_dict =>
          match envLoop [] [] with
          | none => (Outcome.crash "IndexError", [], st1)
          | some environment_dict =>
            if oracle.pullFails then
              (Outcome.aborted RunError.pullError, [Call.pullImage image_name], st1)
            else if oracle.runFails then
              (Outcome.aborted RunError.runAPIError,
               [Call.pullImage image_name,
                Call.run image_name name ports_dict volumes_dict environment_dict], st1)
            else
              (Outcome.success (oracle.ids st1.counter),
               [Call.pullImage image_name,
                Call.run image_name name ports_dict volumes_dict environment_dict],
               { running := st1.running ++ [(oracle.ids st1.counter, image_name)],
                 counter := st1.counter + 1 })

/-- Embeds `run_docker_container` (lines 7–148).  Lines 26–38 hard-code
`'protocol': 'tcp'` in `default_params` and then rebind the local
`protocol` via `params.pop('protocol')`, so the caller's `protocol`
argument is discarded and the conversion always uses `"tcp"`; likewise the
`environment` argument is never copied into `params` and is unused. -/
def run_docker_container (oracle : Oracle) (image_name : String)
    (name : Option String) (protocol : String)
    (ports volumes : Option (List String)) (clean_host_volume_dirs : Bool)
    (environment : Option (List String)) (st : DockerState) :
    Outcome × List Call × DockerState :=
  let d := drainPhase oracle image_name st
  if d.2.2 then
    let a := afterDrain oracle image_name name "tcp" ports volumes clean_host_volume_dirs d.2.1
    (a.1, d.1 ++ a.2.1, a.2.2)
  else
    (Outcome.aborted RunError.drainAPIError, d.1, d.2.1)

/-- Embeds the `__main__` block (lines 150–165) for an invocation with no
unknown extra arguments.  argparse yields `none` for an omitted `--port`,
`--volume` or `--environment` flag (`nargs` with no default).  The body
calls `run_docker_container` twice with the same arguments (lines 163 and
165); `environment` and `clean_host_volume_dirs` are never forwarded, so
they keep their Python defaults (`[]` and `False`).  An uncaught exception
in the first call prevents the second. -/
def mainEntry (oracle : Oracle) (image_name : String) (name : Option String)
    (protocol : String) (port volume : Option (List String)) (st : DockerState) :
    Outcome × List Call × DockerState :=
  let r1 := run_docker_container oracle image_name name protocol port volume false (some []) st
  match r1.1 with
  | Outcome.crash exn => (Outcome.crash exn, r1.2.1, r1.2.2)
  | _ =>
    let r2 := run_docker_container oracle image_name name protocol port volume false (some []) r1.2.2
    (r2.1, r1.2.1 ++ r2.2.1, r2.2.2)

/-- Tests whether a trace contains a pull call. -/
def hasPullCall (t : List Call) : Bool := t.any Call.isPull

/-- Tests whether a trace contains a run call. -/
def hasRunCall (t : List Call) : Bool := t.any Call.isRun

/-- Tests whether a trace contains a stop call. -/
def hasStopCall (t : List Call) : Bool := t.any Call.isStop

/-- Tests whether a trace contains a listRunning call. -/
def hasListCall (t : List Call) : Bool := t.any Call.isList

/-- Tests whether every run call in a trace has an empty environment. -/
def runEnvsEmpty (t : List Call) : Bool := t.all Call.envIsEmpty

/-- An oracle for the happy path: every daemon call succeeds, every host
directory exists, and the daemon assigns the non-empty ids "c", "cc", …. -/
def oracle0 : Oracle where
  listFails := false
  stopFails := fun _ => false
  pruneFails := false
  pullFails := false
  runFails := false
  dirExists := fun _ => true
  ids := fun n => String.mk (List.replicate (n + 1) 'c')

/-- An oracle where stopping container "c1" fails and everything else
succeeds. -/
def oracle1 : Oracle where
  listFails := false
  stopFails := fun cid => cid == "c1"
  pruneFails := false
  pullFails := false
  runFails := false
  dirExists := fun _ => true
  ids := fun n => String.mk (List.replicate (n + 1) 'c')

/-- An oracle where every daemon call succeeds but no host directory
exists. -/
def oracle2 : Oracle where
  listFails := false
  stopFails := fun _ => false
  pruneFails := false
  pullFails := false
  runFails := false
  dirExists := fun _ => false
  ids := fun n => String.mk (List.replicate (n + 1) 'c')

/-- The initial daemon state with no running containers. -/
def st0 : DockerState where
  running := []
  counter := 0

/-- A daemon state with two running containers of the nginx image. -/
def st6 : DockerState where
  running := [("c1", "nginx"), ("c2", "nginx")]
  counter := 0

example : pySplit ':' "8080:80" = ["8080", "80"] := by decide
example : pySplit ':' "8080:" = ["8080", ""] := by decide
example : pySplit '=' "KEY=a=b" = ["KEY", "a", "b"] := by decide
example : envLoop ["KEY=a=b"] [] = some [("KEY", "a")] := by decide
example : envLoop ["A=1", "A=2"] [] = some [("A", "2")] := by decide
example :
    (mainEntry oracle0 "nginx" none "tcp" (some ["8080:80"]) (some []) st0).2.1 =
      [Call.listRunning "nginx", Call.pullImage "nginx",
       Call.run "nginx" none [("80/tcp", "8080")] [] [],
       Call.listRunning "nginx", Call.stop "c", Call.prune,
       Call.pullImage "nginx",
       Call.run "nginx" none [("80/tcp", "8080")] [] []] := by decide

/-- Every call issued by the stop loop is a stop call. -/
theorem drainStops_calls (oracle : Oracle) (ids : List String) :
    ∀ c ∈ (drainStops oracle ids).1, ∃ i, c = Call.stop i := by
  induction ids with
  | nil => simp [drainStops]
  | cons cid rest ih =>
    intro c hc
    by_cases h : oracle.stopFails cid = true
    · simp [drainStops, h] at hc
      exact ⟨cid, hc⟩
    · simp [drainStops, h] at hc
      rcases hc with rfl | hc
      · exact ⟨cid, rfl⟩
      · exact ih c hc

/-- The stop loop succeeds when no matched container's stop fails. -/
theorem drainStops_ok (oracle : Oracle) (ids : List String)
    (h : ∀ i ∈ ids, oracle.stopFails i = false) :
    (drainStops oracle ids).2.2 = true := by
  induction ids with
  | nil => rfl
  | cons cid rest ih =>
    have hc := h cid (by simp)
    simp [drainStops, hc]
    exact ih (fun i hi => h i (by simp [hi]))

/-- The stop loop fails as soon as any matched container's stop fails. -/
theorem drainStops_fails (oracle : Oracle) (ids : List String)
    (h : ∃ i ∈ ids, oracle.stopFails i = true) :
    (drainStops oracle ids).2.2 = false := by
  induction ids with
  | nil => simp at h
  | cons cid rest ih =>
    by_cases hc : oracle.stopFails cid = true
    · simp [drainStops, hc]
    · rcases h with ⟨i, hi, hf⟩
      rcases List.mem_cons.mp hi with rfl | hir
      · exact absurd hf hc
      · simp [drainStops, hc]
        exact ih ⟨i, hir, hf⟩

/-- Every call issued by the drain phase is a list, prune or stop call. -/
theorem drainPhase_calls (oracle : Oracle) (image : String) (st : DockerState) :
    ∀ c ∈ (drainPhase oracle image st).1,
      c = Call.listRunning image ∨ c = Call.prune ∨ ∃ i, c = Call.stop i := by
  intro c hc
  unfold drainPhase at hc
  split at hc
  · simp at hc
    exact Or.inl hc
  · split at hc
    · simp at hc
      exact Or.inl hc
    · split at hc
      · simp at hc
        rcases hc with rfl | hc | rfl
        · exact Or.inl rfl
        · exact Or.inr (Or.inr (drainStops_calls _ _ _ hc))
        · exact Or.inr (Or.inl rfl)
      · simp at hc
        rcases hc with rfl | hc
        · exact Or.inl rfl
        · exact Or.inr (Or.inr (drainStops_calls _ _ _ hc))

/-- Membership in a list forces its isEmpty test to be false. -/
theorem isEmpty_false_of_mem {α : Type} {a : α} {l : List α} (h : a ∈ l) :
    l.isEmpty = false := by
  cases l with
  | nil => exact absurd h (List.not_mem_nil a)
  | cons x xs => rfl

/-- The drain phase never pulls, never runs, and trivially keeps every run
environment empty. -/
theorem drain_trace_flags (oracle : Oracle) (image : String) (st : DockerState) :
    hasPullCall (drainPhase oracle image st).1 = false ∧
    hasRunCall (drainPhase oracle image st).1 = false ∧
    runEnvsEmpty (drainPhase oracle image st).1 = true := by
  refine ⟨?_, ?_, ?_⟩
  · rw [hasPullCall, List.any_eq_false]
    intro c hc
    rcases drainPhase_calls oracle image st c hc with rfl | rfl | ⟨i, rfl⟩ <;>
      simp [Call.isPull]
  · rw [hasRunCall, List.any_eq_false]
    intro c hc
    rcases drainPhase_calls oracle image st c hc with rfl | rfl | ⟨i, rfl⟩ <;>
      simp [Call.isRun]
  · rw [runEnvsEmpty, List.all_eq_true]
    intro c hc
    rcases drainPhase_calls oracle image st c hc with rfl | rfl | ⟨i, rfl⟩ <;>
      simp [Call.envIsEmpty]

/-- The drain phase always issues a listRunning call. -/
theorem drainPhase_lists (oracle : Oracle) (image : String) (st : DockerState) :
    hasListCall (drainPhase oracle image st).1 = true := by
  unfold drainPhase hasListCall
  split
  · simp [Call.isList]
  · split
    · simp [Call.isList]
    · split <;> simp [Call.isList]

/-- The drain phase completes when list, every stop, and prune succeed. -/
theorem drainPhase_ok (oracle : Oracle) (image : String) (st : DockerState)
    (hlist : oracle.listFails = false)
    (hstops : ∀ c ∈ st.running, oracle.stopFails c.1 = false)
    (hprune : oracle.pruneFails = false) :
    (drainPhase oracle image st).2.2 = true := by
  have hok : (drainStops oracle (matchedIds image st)).2.2 = true := by
    apply drainStops_ok
    intro i hi
    rcases List.mem_map.mp hi with ⟨c, hc, rfl⟩
    exact hstops c (List.mem_filter.mp hc).1
  unfold drainPhase
  simp only [hlist, Bool.false_eq_true, if_false]
  split
  · rfl
  · simp [hok, hprune]

/-- The drain phase fails when a running container of the image has a
failing stop. -/
theorem drainPhase_fails_of_stop (oracle : Oracle) (image : String) (st : DockerState)
    (hlist : oracle.listFails = false)
    (hfail : ∃ c ∈ st.running, c.2 = image ∧ oracle.stopFails c.1 = true) :
    (drainPhase oracle image st).2.2 = false := by
  rcases hfail with ⟨c, hcr, him, hsf⟩
  have hmem : c.1 ∈ matchedIds image st :=
    List.mem_map.mpr ⟨c, List.mem_filter.mpr ⟨hcr, by simp [him]⟩, rfl⟩
  have hne : (matchedIds image st).isEmpty = false := isEmpty_false_of_mem hmem
  have hds := drainStops_fails oracle (matchedIds image st) ⟨c.1, hmem, hsf⟩
  unfold drainPhase
  simp [hlist, hne, hds]

/-- When the drain phase hits an APIError, `run_docker_container` returns
at line 86 with only the drain calls issued. -/
theorem rdc_drain_fail (oracle : Oracle) (image : String) (name : Option String)
    (protocol : String) (ports volumes : Option (List String)) (clean : Bool)
    (environment : Option (List String)) (st : DockerState)
    (h : (drainPhase oracle image st).2.2 = false) :
    run_docker_container oracle image name protocol ports volumes clean environment st =
      (Outcome.aborted RunError.drainAPIError, (drainPhase oracle image st).1,
       (drainPhase oracle image st).2.1) := by
  simp [run_docker_container, h]

/-- When the drain phase completes, `run_docker_container` continues with
the conversion loops, pull and run, appending their calls to the drain
calls. -/
theorem rdc_drain_ok (oracle : Oracle) (image : String) (name : Option String)
    (protocol : String) (ports volumes : Option (List String)) (clean : Bool)
    (environment : Option (List String)) (st : DockerState)
    (h : (drainPhase oracle image st).2.2 = true) :
    run_docker_container oracle image name protocol ports volumes clean environment st =
      ((afterDrain oracle image name "tcp" ports volumes clean
          (drainPhase oracle image st).2.1).1,
       (drainPhase oracle image st).1 ++
         (afterDrain oracle image name "tcp" ports volumes clean
           (drainPhase oracle image st).2.1).2.1,
       (afterDrain oracle image name "tcp" ports volumes clean
         (drainPhase oracle image st).2.1).2.2) := by
  simp [run_docker_container, h]

/-- The port loop crashes with IndexError when some port string has fewer
than two `:`-separated tokens. -/
theorem portsLoop_none (protocol : String) (ps : List String)
    (acc : List (String × String)) (h : ∃ p ∈ ps, (pySplit ':' p).length < 2) :
    portsLoop protocol ps acc = none := by
  induction ps generalizing acc with
  | nil => simp at h
  | cons p rest ih =>
    rcases hs : pySplit ':' p with _ | ⟨a, _ | ⟨b, r⟩⟩
    · simp [portsLoop, hs]
    · simp [portsLoop, hs]
    · rcases h with ⟨q, hq, hlen⟩
      rcases List.mem_cons.mp hq with rfl | hqr
      · rw [hs] at hlen
        simp only [List.length_cons] at hlen
        omega
      · simp only [portsLoop, hs]
        exact ih _ ⟨q, hqr, hlen⟩

/-- The port loop succeeds when every port string has at least two
`:`-separated tokens. -/
theorem portsLoop_ok (protocol : String) (ps : List String)
    (acc : List (String × String)) (h : ∀ p ∈ ps, 2 ≤ (pySplit ':' p).length) :
    ∃ d, portsLoop protocol ps acc = some d := by
  induction ps generalizing acc with
  | nil => exact ⟨acc, rfl⟩
  | cons p rest ih =>
    have hp := h p (by simp)
    rcases hs : pySplit ':' p with _ | ⟨a, _ | ⟨b, r⟩⟩
    · rw [hs] at hp
      simp at hp
    · rw [hs] at hp
      simp at hp
    · simp only [portsLoop, hs]
      exact ih _ (fun x hx => h x (by simp [hx]))

/-- Under `clean_host_volume_dirs`, the volume loop returns at line 113
with the first missing host directory, when every volume string parses and
some volume's host directory is missing. -/
theorem volumesLoop_missing (dirExists : String → Bool) (vs : List String)
    (acc : List (String × VolumeBind))
    (hwf : ∀ v ∈ vs, 2 ≤ (pySplit ':' v).length)
    (hmiss : ∃ v ∈ vs, ∃ h c r, pySplit ':' v = h :: c :: r ∧ dirExists h = false) :
    ∃ h, volumesLoop dirExists true vs acc = VolRes.missing h ∧ dirExists h = false := by
  induction vs generalizing acc with
  | nil => simp at hmiss
  | cons v rest ih =>
    have hv2 := hwf v (by simp)
    rcases hs : pySplit ':' v with _ | ⟨h1, _ | ⟨c1, r1⟩⟩
    · rw [hs] at hv2
      simp at hv2
    · rw [hs] at hv2
      simp at hv2
    · by_cases hd : dirExists h1 = true
      · rcases hmiss with ⟨w, hw, h2, c2, r2, hs2, hde⟩
        rcases List.mem_cons.mp hw with rfl | hwr
        · rw [hs] at hs2
          injection hs2 with e1 _
          rw [e1] at hd
          rw [hd] at hde
          cases hde
        · simp only [volumesLoop, hs, hd, Bool.not_true, Bool.and_false,
            Bool.false_eq_true, if_false]
          exact ih _ (fun x hx => hwf x (by simp [hx])) ⟨w, hwr, h2, c2, r2, hs2, hde⟩
      · have hd2 : dirExists h1 = false := by
          cases hq : dirExists h1
          · rfl
          · exact absurd hq hd
        refine ⟨h1, ?_, hd2⟩
        simp [volumesLoop, hs, hd2]

/-- Every trace produced by the post-drain phases keeps run environments
empty: the environment dict always comes from the default empty list. -/
theorem afterDrain_envs (oracle : Oracle) (image : String) (name : Option String)
    (protocol : String) (ports volumes : Option (List String)) (clean : Bool)
    (st1 : DockerState) :
    runEnvsEmpty (afterDrain oracle image name protocol ports volumes clean st1).2.1
      = true := by
  unfold afterDrain
  split
  · rfl
  · split
    · rfl
    · split
      · rfl
      · split
        · rfl
        · rfl
        · split
          · rfl
          · rename_i environment_dict heq
            have hed : environment_dict = [] := by
              have : envLoop [] [] = some [] := rfl
              rw [this] at heq
              injection heq with h2
              exact h2.symm
            subst hed
            split
            · rfl
            · split <;> rfl

/-- C1: the claim states that with image "nginx", ports ["8080:80"], no
volumes, no env and no pre-existing containers, the program performs
exactly one pullImage call, one run call and zero stop calls, reporting
success with a non-empty container id.  The `__main__` block instead calls
`run_docker_container` twice (lines 163 and 165), so on the happy path the
program issues two pulls, two runs and one stop (the second invocation
drains the container the first one started), though it does finish with a
running container and a non-empty id. -/
theorem c1_main_runs_twice :
    ((mainEntry oracle0 "nginx" none "tcp" (some ["8080:80"]) (some []) st0).2.1.countP
        Call.isRun = 2) ∧
    ((mainEntry oracle0 "nginx" none "tcp" (some ["8080:80"]) (some []) st0).2.1.countP
        Call.isPull = 2) ∧
    ((mainEntry oracle0 "nginx" none "tcp" (some ["8080:80"]) (some []) st0).2.1.countP
        Call.isStop = 1) ∧
    (mainEntry oracle0 "nginx" none "tcp" (some ["8080:80"]) (some []) st0).1 =
      Outcome.success "cc" ∧
    "cc" ≠ "" := by decide

/-- C2 (counterexample): the claim states that normalizing "KEY=a=b" binds
KEY to "a=b".  The env loop splits on every `=` and takes `parts[1]`, so
KEY is bound to "a", not "a=b". -/
theorem c2_counterexample :
    envLoop ["KEY=a=b"] [] = some [("KEY", "a")] ∧
    envLoop ["KEY=a=b"] [] ≠ some [("KEY", "a=b")] := by decide

/-- C2 (amended): for an environment string whose `=`-split is a name, a
value token and possibly further tokens, the env loop binds the name to
the single token between the first and second `=` and drops the rest, so
"KEY=a=b" yields KEY bound to "a". -/
theorem c2_env_value_is_second_token (e name value : String) (r : List String)
    (h : pySplit '=' e = name :: value :: r) :
    envLoop [e] [] = some [(name, value)] := by
  simp [envLoop, h, dictInsert]

/-- C2 witness: the amended statement instantiated at "KEY=a=b". -/
theorem c2_env_value_is_second_token_witness :
    envLoop ["KEY=a=b"] [] = some [("KEY", "a")] :=
  c2_env_value_is_second_token "KEY=a=b" "KEY" "a" ["b"] (by decide)

/-- C3 (counterexample): the claim states that the list ["A=1", "A=2"]
fails with a DuplicateKey error and is never resolved by last-wins
overwriting.  The env loop succeeds on it and resolves the duplicate by
last-wins dict assignment, binding A to "2". -/
theorem c3_counterexample :
    envLoop ["A=1", "A=2"] [] = some [("A", "2")] ∧
    envLoop ["A=1", "A=2"] [] ≠ none := by decide

/-- C3 (amended): two assignments to the same variable name are resolved
by last-wins dict overwriting — the loop succeeds with a single entry for
the name holding the second value — and no error is raised. -/
theorem c3_env_duplicate_last_wins (e1 e2 k v1 v2 : String)
    (h1 : pySplit '=' e1 = [k, v1]) (h2 : pySplit '=' e2 = [k, v2]) :
    envLoop [e1, e2] [] = some [(k, v2)] := by
  simp [envLoop, h1, h2, dictInsert]

/-- C3 witness: the amended statement instantiated at "A=1", "A=2". -/
theorem c3_env_duplicate_last_wins_witness :
    envLoop ["A=1", "A=2"] [] = some [("A", "2")] :=
  c3_env_duplicate_last_wins "A=1" "A=2" "A" "1" "2" (by decide) (by decide)

/-- C4: the claim states the protocol in the port mapping is tcp by
default but is the caller-supplied protocol when overridden.  Line 38 pops
the hard-coded `'tcp'` from `default_params`, discarding the caller's
`protocol` argument, so invoking with protocol "udp" still produces the
mapping key "80/tcp". -/
theorem c4_protocol_argument_discarded :
    (run_docker_container oracle0 "nginx" none "udp" (some ["8080:80"]) (some [])
        false (some []) st0).2.1 =
      [Call.listRunning "nginx", Call.pullImage "nginx",
       Call.run "nginx" none [("80/tcp", "8080")] [] []] := by decide

/-- C5 (counterexample): the claim states a port string that does not
split into exactly two non-empty tokens fails with MalformedPortMapping
rather than producing a mapping or crashing.  "8080:" (an empty container
token) silently produces the mapping "/tcp" to "8080", and "8080" (one
token) raises an uncaught IndexError. -/
theorem c5_counterexample :
    portsLoop "tcp" ["8080:"] [] = some [("/tcp", "8080")] ∧
    portsLoop "tcp" ["8080"] [] = none := by decide

/-- C5 (amended): port strings are not validated — a string with fewer
than two `:`-tokens raises an uncaught IndexError, and any string with at
least two tokens (even empty or extra ones) produces a mapping from the
first two tokens; no MalformedPortMapping error exists. -/
theorem c5_ports_unvalidated (p host containerPort : String) (r : List String) :
    ((pySplit ':' p).length = 1 → portsLoop "tcp" [p] [] = none) ∧
    (pySplit ':' p = host :: containerPort :: r →
      portsLoop "tcp" [p] [] = some [(containerPort ++ "/" ++ "tcp", host)]) := by
  constructor
  · intro h
    rcases hs : pySplit ':' p with _ | ⟨a, _ | ⟨b, r2⟩⟩
    · simp [portsLoop, hs]
    · simp [portsLoop, hs]
    · rw [hs] at h
      simp at h
  · intro h
    simp [portsLoop, h, dictInsert]

/-- C5 witness: the amended statement instantiated at "8080" (IndexError)
and "8080:" (silent mapping). -/
theorem c5_ports_unvalidated_witness :
    portsLoop "tcp" ["8080"] [] = none ∧
    portsLoop "tcp" ["8080:"] [] = some [("" ++ "/" ++ "tcp", "8080")] :=
  ⟨(c5_ports_unvalidated "8080" "" "" []).1 (by decide),
   (c5_ports_unvalidated "8080:" "8080" "" []).2 (by decide)⟩

/-- C6 (counterexample): with containers c1 and c2 of the image running,
the stop of c1 failing and the stop of c2 succeeding — some but not all
stops failing — the reconciliation does not proceed to the pull step: it
aborts immediately and never even attempts to stop c2. -/
theorem c6_counterexample :
    oracle1.stopFails "c1" = true ∧ oracle1.stopFails "c2" = false ∧
    (run_docker_container oracle1 "nginx" none "tcp" (some ["8080:80"]) (some [])
        false (some []) st6).1 = Outcome.aborted RunError.drainAPIError ∧
    hasPullCall (run_docker_container oracle1 "nginx" none "tcp" (some ["8080:80"])
        (some []) false (some []) st6).2.1 = false ∧
    Call.stop "c2" ∉ (run_docker_container oracle1 "nginx" none "tcp"
        (some ["8080:80"]) (some []) false (some []) st6).2.1 := by decide

/-- C6 (amended): any stop failure during draining aborts the whole
reconciliation at once — the handler at line 84 returns, so the pull step
is never reached and no run call is issued; there is no partial-failure
tolerance and no all-stops-fail distinction. -/
theorem c6_single_stop_failure_aborts (oracle : Oracle) (image : String)
    (name : Option String) (protocol : String) (ports volumes : Option (List String))
    (clean : Bool) (environment : Option (List String)) (st : DockerState)
    (hlist : oracle.listFails = false)
    (hfail : ∃ c ∈ st.running, c.2 = image ∧ oracle.stopFails c.1 = true) :
    (run_docker_container oracle image name protocol ports volumes clean environment
        st).1 = Outcome.aborted RunError.drainAPIError ∧
    hasPullCall (run_docker_container oracle image name protocol ports volumes clean
        environment st).2.1 = false ∧
    hasRunCall (run_docker_container oracle image name protocol ports volumes clean
        environment st).2.1 = false := by
  have hdf := drainPhase_fails_of_stop oracle image st hlist hfail
  rw [rdc_drain_fail oracle image name protocol ports volumes clean environment st hdf]
  exact ⟨rfl, (drain_trace_flags oracle image st).1,
    (drain_trace_flags oracle image st).2.1⟩

/-- C6 witness: the amended statement instantiated at two running nginx
containers of which the first has a failing stop. -/
theorem c6_single_stop_failure_aborts_witness :
    (run_docker_container oracle1 "nginx" none "tcp" (some ["8080:80"]) (some [])
        false (some []) st6).1 = Outcome.aborted RunError.drainAPIError ∧
    hasPullCall (run_docker_container oracle1 "nginx" none "tcp" (some ["8080:80"])
        (some []) false (some []) st6).2.1 = false ∧
    hasRunCall (run_docker_container oracle1 "nginx" none "tcp" (some ["8080:80"])
        (some []) false (some []) st6).2.1 = false :=
  c6_single_stop_failure_aborts oracle1 "nginx" none "tcp" (some ["8080:80"])
    (some []) false (some []) st6 rfl ⟨("c1", "nginx"), by decide, rfl, by decide⟩

/-- C7 (counterexample): the claim states that on an input with a
malformed mapping string no listRunning call is ever issued.  With the
malformed port string "8080" the program still issues the listRunning
call, because the drain phase (lines 69 to 86) runs before any string
parsing (lines 89 onward); only then does it crash. -/
theorem c7_counterexample :
    (run_docker_container oracle0 "nginx" none "tcp" (some ["8080"]) (some [])
        false (some []) st0).1 = Outcome.crash "IndexError" ∧
    Call.listRunning "nginx" ∈ (run_docker_container oracle0 "nginx" none "tcp"
        (some ["8080"]) (some []) false (some []) st0).2.1 := by decide

/-- C7 (amended): a malformed port string (fewer than two `:`-tokens)
makes the program crash with an uncaught IndexError only after the drain
phase: the listRunning call has already been issued, while no pull and no
run call is ever issued. -/
theorem c7_malformed_port_crashes_after_drain (oracle : Oracle) (image : String)
    (name : Option String) (protocol : String) (ps : List String)
    (volumes : Option (List String)) (clean : Bool)
    (environment : Option (List String)) (st : DockerState)
    (hlist : oracle.listFails = false)
    (hstops : ∀ c ∈ st.running, oracle.stopFails c.1 = false)
    (hprune : oracle.pruneFails = false)
    (hbad : ∃ p ∈ ps, (pySplit ':' p).length < 2) :
    (run_docker_container oracle image name protocol (some ps) volumes clean
        environment st).1 = Outcome.crash "IndexError" ∧
    hasListCall (run_docker_container oracle image name protocol (some ps) volumes
        clean environment st).2.1 = true ∧
    hasPullCall (run_docker_container oracle image name protocol (some ps) volumes
        clean environment st).2.1 = false ∧
    hasRunCall (run_docker_container oracle image name protocol (some ps) volumes
        clean environment st).2.1 = false := by
  have hok := drainPhase_ok oracle image st hlist hstops hprune
  have hpl := portsLoop_none "tcp" ps [] hbad
  have ha : afterDrain oracle image name "tcp" (some ps) volumes clean
      (drainPhase oracle image st).2.1 =
      (Outcome.crash "IndexError", [], (drainPhase oracle image st).2.1) := by
    simp [afterDrain, hpl]
  rw [rdc_drain_ok oracle image name protocol (some ps) volumes clean environment
    st hok, ha]
  refine ⟨rfl, ?_, ?_, ?_⟩
  · simp only [List.append_nil]
    exact drainPhase_lists oracle image st
  · simp only [List.append_nil]
    exact (drain_trace_flags oracle image st).1
  · simp only [List.append_nil]
    exact (drain_trace_flags oracle image st).2.1

/-- C7 witness: the amended statement instantiated at the malformed port
"8080" with no running containers. -/
theorem c7_malformed_port_crashes_after_drain_witness :
    (run_docker_container oracle0 "nginx" none "tcp" (some ["8080"]) (some [])
        false (some []) st0).1 = Outcome.crash "IndexError" ∧
    hasListCall (run_docker_container oracle0 "nginx" none "tcp" (some ["8080"])
        (some []) false (some []) st0).2.1 = true ∧
    hasPullCall (run_docker_container oracle0 "nginx" none "tcp" (some ["8080"])
        (some []) false (some []) st0).2.1 = false ∧
    hasRunCall (run_docker_container oracle0 "nginx" none "tcp" (some ["8080"])
        (some []) false (some []) st0).2.1 = false :=
  c7_malformed_port_crashes_after_drain oracle0 "nginx" none "tcp" ["8080"]
    (some []) false (some []) st0 rfl (by intro c hc; cases hc) rfl
    ⟨"8080", by decide, by decide⟩

/-- C8: with `clean_host_volume_dirs` set, well-formed mapping strings, a
completing drain, and at least one volume whose host path is not an
existing directory, `run_docker_container` returns at the missing-volume
check (line 113) and no run call is ever issued. -/
theorem c8_missing_volume_blocks_run (oracle : Oracle) (image : String)
    (name : Option String) (protocol : String) (ps vs : List String)
    (environment : Option (List String)) (st : DockerState)
    (hlist : oracle.listFails = false)
    (hstops : ∀ c ∈ st.running, oracle.stopFails c.1 = false)
    (hprune : oracle.pruneFails = false)
    (hports : ∀ p ∈ ps, 2 ≤ (pySplit ':' p).length)
    (hvols : ∀ v ∈ vs, 2 ≤ (pySplit ':' v).length)
    (hmiss : ∃ v ∈ vs, ∃ h c r, pySplit ':' v = h :: c :: r ∧
      oracle.dirExists h = false) :
    (run_docker_container oracle image name protocol (some ps) (some vs) true
        environment st).1.isVolumeMissing = true ∧
    hasRunCall (run_docker_container oracle image name protocol (some ps) (some vs)
        true environment st).2.1 = false ∧
    hasPullCall (run_docker_container oracle image name protocol (some ps) (some vs)
        true environment st).2.1 = false := by
  have hok := drainPhase_ok oracle image st hlist hstops hprune
  rcases portsLoop_ok "tcp" ps [] hports with ⟨pd, hpd⟩
  rcases volumesLoop_missing oracle.dirExists vs [] hvols hmiss with ⟨h, hvl, hde⟩
  have ha : afterDrain oracle image name "tcp" (some ps) (some vs) true
      (drainPhase oracle image st).2.1 =
      (Outcome.aborted (RunError.volumeMissing h), [],
       (drainPhase oracle image st).2.1) := by
    simp [afterDrain, hpd, hvl]
  rw [rdc_drain_ok oracle image name protocol (some ps) (some vs) true environment
    st hok, ha]
  refine ⟨rfl, ?_, ?_⟩
  · simp only [List.append_nil]
    exact (drain_trace_flags oracle image st).2.1
  · simp only [List.append_nil]
    exact (drain_trace_flags oracle image st).1

/-- C8 witness: the statement instantiated at volume "/data:/d" whose host
directory is missing, with no running containers. -/
theorem c8_missing_volume_blocks_run_witness :
    (run_docker_container oracle2 "nginx" none "tcp" (some ["8080:80"])
        (some ["/data:/d"]) true (some []) st0).1.isVolumeMissing = true ∧
    hasRunCall (run_docker_container oracle2 "nginx" none "tcp" (some ["8080:80"])
        (some ["/data:/d"]) true (some []) st0).2.1 = false ∧
    hasPullCall (run_docker_container oracle2 "nginx" none "tcp" (some ["8080:80"])
        (some ["/data:/d"]) true (some []) st0).2.1 = false :=
  c8_missing_volume_blocks_run oracle2 "nginx" none "tcp" ["8080:80"] ["/data:/d"]
    (some []) st0 rfl (by intro c hc; cases hc) rfl (by decide) (by decide)
    ⟨"/data:/d", by decide, "/data", "/d", [], by decide, rfl⟩

/-- C9: lines 26 to 38 never copy the `environment` argument into
`params`, so the result of `run_docker_container` is independent of that
argument, and every run call it issues carries the empty environment dict
— user-supplied variables never reach the container. -/
theorem c9_environment_never_reaches_run (oracle : Oracle) (image : String)
    (name : Option String) (protocol : String) (ports volumes : Option (List String))
    (clean : Bool) (env1 env2 : Option (List String)) (st : DockerState) :
    run_docker_container oracle image name protocol ports volumes clean env1 st =
      run_docker_container oracle image name protocol ports volumes clean env2 st ∧
    runEnvsEmpty (run_docker_container oracle image name protocol ports volumes clean
        env1 st).2.1 = true := by
  refine ⟨rfl, ?_⟩
  by_cases hok : (drainPhase oracle image st).2.2 = true
  · rw [rdc_drain_ok oracle image name protocol ports volumes clean env1 st hok]
    have h1 := (drain_trace_flags oracle image st).2.2
    have h2 := afterDrain_envs oracle image name "tcp" ports volumes clean
      (drainPhase oracle image st).2.1
    simp only [runEnvsEmpty] at h1 h2 ⊢
    rw [List.all_append, h1, h2]
    rfl
  · have hf : (drainPhase oracle image st).2.2 = false := by
      cases hq : (drainPhase oracle image st).2.2
      · rfl
      · exact absurd hq hok
    rw [rdc_drain_fail oracle image name protocol ports volumes clean env1 st hf]
    exact (drain_trace_flags oracle image st).2.2

/-- C10: an invocation whose `--port` flag is omitted (argparse yields
`None`), or whose `--volume` flag is omitted while the ports parse, makes
the program crash with an uncaught TypeError from iterating `None` — and
only after the drain phase: listRunning has already been issued, while no
pull and no run call ever is. -/
theorem c10_omitted_flag_crashes (oracle : Oracle) (image : String)
    (name : Option String) (protocol : String) (port volume : Option (List String))
    (st : DockerState)
    (hlist : oracle.listFails = false)
    (hstops : ∀ c ∈ st.running, oracle.stopFails c.1 = false)
    (hprune : oracle.pruneFails = false)
    (h : port = none ∨
      (volume = none ∧ ∃ ps, port = some ps ∧ ∀ p ∈ ps, 2 ≤ (pySplit ':' p).length)) :
    (mainEntry oracle image name protocol port volume st).1 =
      Outcome.crash "TypeError" ∧
    hasListCall (mainEntry oracle image name protocol port volume st).2.1 = true ∧
    hasPullCall (mainEntry oracle image name protocol port volume st).2.1 = false ∧
    hasRunCall (mainEntry oracle image name protocol port volume st).2.1 = false := by
  have hok := drainPhase_ok oracle image st hlist hstops hprune
  have ha : afterDrain oracle image name "tcp" port volume false
      (drainPhase oracle image st).2.1 =
      (Outcome.crash "TypeError", [], (drainPhase oracle image st).2.1) := by
    rcases h with rfl | ⟨rfl, ps, rfl, hwf⟩
    · rfl
    · rcases portsLoop_ok "tcp" ps [] hwf with ⟨d, hd⟩
      simp [afterDrain, hd]
  have hr1 : run_docker_container oracle image name protocol port volume false
      (some []) st =
      (Outcome.crash "TypeError", (drainPhase oracle image st).1,
       (drainPhase oracle image st).2.1) := by
    rw [rdc_drain_ok oracle image name protocol port volume false (some []) st hok,
      ha]
    simp
  have hm : mainEntry oracle image name protocol port volume st =
      (Outcome.crash "TypeError", (drainPhase oracle image st).1,
       (drainPhase oracle image st).2.1) := by
    simp [mainEntry, hr1]
  rw [hm]
  exact ⟨rfl, drainPhase_lists oracle image st,
    (drain_trace_flags oracle image st).1, (drain_trace_flags oracle image st).2.1⟩

/-- C10 witness: the statement instantiated at an omitted `--port` flag
with no running containers. -/
theorem c10_omitted_flag_crashes_witness :
    (mainEntry oracle0 "nginx" none "tcp" none (some []) st0).1 =
      Outcome.crash "TypeError" ∧
    hasListCall (mainEntry oracle0 "nginx" none "tcp" none (some []) st0).2.1
      = true ∧
    hasPullCall (mainEntry oracle0 "nginx" none "tcp" none (some []) st0).2.1
      = false ∧
    hasRunCall (mainEntry oracle0 "nginx" none "tcp" none (some []) st0).2.1
      = false :=
  c10_omitted_flag_crashes oracle0 "nginx" none "tcp" none (some []) st0 rfl
    (by intro c hc; cases hc) rfl (Or.inl rfl)
